import Mathlib

/-!
Verification of the Express notes lesson app: the routes file mounted at
`/notes` (module-level notes array, `/:id` lookup, `getNoteFromDB`,
`/async-notes/:id`), together with the lesson's centralized error middleware,
catch-all 404 middleware and POST `/notes` validation handler, composed in
registration order into a single request-handling function.
-/

namespace NotesApp

/-- HTTP method, as far as this app distinguishes them. -/
inductive Method where
  | GET
  | POST
  deriving DecidableEq, Repr

/-- Rendering of a method for the catch-all 404 message. -/
def methodStr : Method → String
  | .GET => "GET"
  | .POST => "POST"

/-- A note record `{ id, title, body }` from the fake data store. -/
structure Note where
  id : String
  title : String
  body : String
  deriving DecidableEq, Repr

/-- A parsed JSON request body: `title` and `body` fields, each possibly
absent (`undefined` in the source). -/
structure ReqBody where
  title : Option String
  body : Option String
  deriving DecidableEq, Repr

/-- An incoming request: method, path split into segments, parsed body. -/
structure Request where
  method : Method
  segs : List String
  reqBody : ReqBody
  deriving DecidableEq, Repr

/-- `req.url` as seen by the app-level catch-all middleware. -/
def urlOf (segs : List String) : String :=
  "/" ++ String.intercalate "/" segs

/-- An `Error` object carrying `message` and an optional bolted-on numeric
`status` field (`err.status = 404` in the source; absent by default). -/
structure AppError where
  message : String
  status : Option Nat
  deriving DecidableEq, Repr

/-- The JSON shapes this app ever serializes as a response body. -/
inductive Body where
  | noteB : Note → Body
  | notesB : List Note → Body
  | msgB : String → Body
  | errB : String → Nat → Body
  deriving DecidableEq, Repr

/-- Final observable outcome of one request: either exactly one response was
written, or the request died as an unhandled fault (uncaught promise
rejection — the README: "Server crashes. Error middleware is NOT called"). -/
inductive Outcome where
  | respond : Nat → Body → Outcome
  | unhandledFault : String → Outcome
  deriving DecidableEq, Repr

/-- What a stage of the middleware chain does with a request:
respond, call `next(err)` (delegate), die on an uncaught rejection,
or fall through to the next stage (`next()` / no match). -/
inductive RouteResult where
  | respond : Nat → Body → RouteResult
  | delegate : AppError → RouteResult
  | fault : String → RouteResult
  | next : RouteResult
  deriving DecidableEq, Repr

/-- The module-level `notes` array of the router file, as seeded. -/
def seededNotes : List Note :=
  [⟨"1", "Grocery", "Buy milk"⟩, ⟨"2", "Workout", "Leg day"⟩]

/-- The array `getNoteFromDB` closes over (hard-coded inside the promise). -/
def dbNotes : List Note :=
  [⟨"1", "Grocery", "Buy milk"⟩, ⟨"2", "Workout", "Leg day"⟩]

/-- `getNoteFromDB(id)`: resolves with the found note, rejects with
`Error("Note not found in database")` when absent. The timer only delays;
the settled value depends on `id` alone. -/
def getNoteFromDB (id : String) : Except String Note :=
  match dbNotes.find? (fun n => n.id == id) with
  | some note => Except.ok note
  | none => Except.error "Note not found in database"

/-- JavaScript falsiness of a possibly-absent string (`!title`):
`undefined` and the empty string are falsy. -/
def falsy : Option String → Bool
  | none => true
  | some s => s == ""

/-- The notes router (mounted at `/notes`), applied to the path relative to
the mount point. Routes in registration order: `GET /`, `GET /:id`,
`GET /async-notes/:id`. The async route awaits `getNoteFromDB` with no
try/catch, so a rejection becomes an unhandled fault, not a delegation. -/
def notesRouter (store : List Note) (m : Method) (segs : List String) : RouteResult :=
  match m, segs with
  | .GET, [] => .respond 200 (.notesB store)
  | .GET, [id] =>
    match store.find? (fun n => n.id == id) with
    | some note => .respond 200 (.noteB note)
    | none => .delegate ⟨"Note not found", some 404⟩
  | .GET, ["async-notes", id] =>
    match getNoteFromDB id with
    | .ok note => .respond 200 (.noteB note)
    | .error e => .fault e
  | _, _ => .next

/-- The POST `/notes` validation handler (lesson extension): on missing or
empty `title`/`body`, delegates `AppError("title and body required", 400)`;
otherwise pushes `{ id: String(notes.length + 1), title, body }` and
responds 201 with the created note. -/
def postNotesHandler (store : List Note) (rb : ReqBody) : RouteResult × List Note :=
  if falsy rb.title || falsy rb.body then
    (.delegate ⟨"title and body required", some 400⟩, store)
  else
    let newNote : Note := ⟨toString (store.length + 1), rb.title.getD "", rb.body.getD ""⟩
    (.respond 201 (.noteB newNote), store ++ [newNote])

/-- Stages registered after the router mount: the POST `/notes` handler
(requests the router did not answer fall through to it). -/
def afterRouter (store : List Note) (req : Request) : RouteResult × List Note :=
  if req.method = .POST ∧ req.segs = ["notes"] then
    postNotesHandler store req.reqBody
  else
    (.next, store)

/-- All real routes in registration order: `GET /hello`, then the router
mounted at `/notes` (matching any path whose first segment is `notes`),
then the POST `/notes` handler. Returns `.next` iff no route answered. -/
def routes (store : List Note) (req : Request) : RouteResult × List Note :=
  if req.method = .GET ∧ req.segs = ["hello"] then
    (.respond 200 (.msgB "Hello"), store)
  else
    match req.segs with
    | seg0 :: rest =>
      if seg0 = "notes" then
        match notesRouter store req.method rest with
        | .next => afterRouter store req
        | r => (r, store)
      else afterRouter store req
    | [] => afterRouter store req

/-- The error synthesized by the catch-all 404 middleware:
`Error("Route not found: <method> <url>")` with `status = 404`. -/
def notFoundErr (req : Request) : AppError :=
  ⟨"Route not found: " ++ methodStr req.method ++ " " ++ urlOf req.segs, some 404⟩

/-- `err.status || 500`: the status used by the error middleware. `0` is
falsy in JavaScript, so a present-but-zero status also defaults to 500. -/
def statusOrDefault : Option Nat → Nat
  | none => 500
  | some 0 => 500
  | some (n + 1) => n + 1

/-- The centralized error middleware: one response,
`res.status(err.status || 500).json({ error: { message, status } })`. -/
def errorMiddleware (e : AppError) : Outcome :=
  .respond (statusOrDefault e.status) (.errB e.message (statusOrDefault e.status))

/-- The whole app: real routes, then the catch-all 404 middleware (turning a
fall-through into a delegated not-found error), then the error middleware
(turning any delegated error into the shaped JSON envelope). An uncaught
rejection bypasses both and surfaces as an unhandled fault. -/
def handleApp (store : List Note) (req : Request) : Outcome × List Note :=
  match routes store req with
  | (.respond c b, s) => (.respond c b, s)
  | (.delegate e, s) => (errorMiddleware e, s)
  | (.fault m, s) => (.unhandledFault m, s)
  | (.next, s) => (errorMiddleware (notFoundErr req), s)

/-- Claim C6: before any append, GET `/notes` responds 200 with exactly the
two seeded notes in insertion order, and leaves the store unchanged. -/
theorem C6_seeded_list :
    handleApp seededNotes ⟨Method.GET, ["notes"], ⟨none, none⟩⟩ =
      (Outcome.respond 200 (Body.notesB
        [⟨"1", "Grocery", "Buy milk"⟩, ⟨"2", "Workout", "Leg day"⟩]), seededNotes) := by
  rfl

/-- Claim C10: the `/async-notes/:id` route reads only the array captured
inside `getNoteFromDB`, so its outcome is determined by the id alone —
identical under any two states of the module-level notes store (and any two
request bodies); appended notes are invisible to it. -/
theorem C10_async_ignores_store (s1 s2 : List Note) (id : String) (rb1 rb2 : ReqBody) :
    (handleApp s1 ⟨Method.GET, ["notes", "async-notes", id], rb1⟩).1 =
      (handleApp s2 ⟨Method.GET, ["notes", "async-notes", id], rb2⟩).1 := by
  simp only [handleApp, routes, notesRouter]
  cases h : getNoteFromDB id <;> simp [h]

/-- Claim C1: every request matched by no registered route is answered with
status 404 and the shaped body whose message interpolates the method and the
path, produced by the catch-all middleware placed after all real routes and
rendered by the error middleware. -/
theorem C1_unmatched_route_404 (store : List Note) (req : Request)
    (h : (routes store req).1 = RouteResult.next) :
    (handleApp store req).1 =
      Outcome.respond 404
        (Body.errB ("Route not found: " ++ methodStr req.method ++ " " ++ urlOf req.segs) 404) := by
  rcases hq : routes store req with ⟨r, s⟩
  rw [hq] at h
  simp only at h
  subst h
  simp [handleApp, hq, errorMiddleware, notFoundErr, statusOrDefault]

theorem C1_unmatched_route_404_witness :
    (handleApp seededNotes ⟨Method.GET, ["does-not-exist"], ⟨none, none⟩⟩).1 =
      Outcome.respond 404 (Body.errB "Route not found: GET /does-not-exist" 404) :=
  C1_unmatched_route_404 seededNotes ⟨Method.GET, ["does-not-exist"], ⟨none, none⟩⟩ (by decide)

/-- Claim C2: when no note in the store has id `j`, GET `/notes/j` responds
with status 404 and exactly the envelope
`{error: {message: "Note not found", status: 404}}`. -/
theorem C2_missing_note_404 (store : List Note) (j : String)
    (h : ∀ n ∈ store, n.id ≠ j) :
    (handleApp store ⟨Method.GET, ["notes", j], ⟨none, none⟩⟩).1 =
      Outcome.respond 404 (Body.errB "Note not found" 404) := by
  have hf : store.find? (fun n => n.id == j) = none := by
    rw [List.find?_eq_none]
    intro n hn
    simpa using h n hn
  simp [handleApp, routes, notesRouter, hf, errorMiddleware, statusOrDefault]

theorem C2_missing_note_404_witness :
    (handleApp seededNotes ⟨Method.GET, ["notes", "999"], ⟨none, none⟩⟩).1 =
      Outcome.respond 404 (Body.errB "Note not found" 404) :=
  C2_missing_note_404 seededNotes "999" (by decide)

/-- Claim C5: when the store's lookup finds a note with id `i`, GET `/notes/i`
responds with status 200 and that note as the body; the found note's id
equals `i`. -/
theorem C5_existing_note_200 (store : List Note) (i : String) (note : Note)
    (h : store.find? (fun n => n.id == i) = some note) :
    (handleApp store ⟨Method.GET, ["notes", i], ⟨none, none⟩⟩).1 =
      Outcome.respond 200 (Body.noteB note) ∧ note.id = i := by
  refine ⟨?_, ?_⟩
  · simp [handleApp, routes, notesRouter, h]
  · have hb := List.find?_some h
    exact eq_of_beq hb

theorem C5_existing_note_200_witness :
    (handleApp seededNotes ⟨Method.GET, ["notes", "1"], ⟨none, none⟩⟩).1 =
      Outcome.respond 200 (Body.noteB ⟨"1", "Grocery", "Buy milk"⟩) ∧
      Note.id ⟨"1", "Grocery", "Buy milk"⟩ = "1" :=
  C5_existing_note_200 seededNotes "1" ⟨"1", "Grocery", "Buy milk"⟩ (by decide)

/-- Claim C3 fails as stated at a status field that is present but `0`:
`err.status || 500` treats the falsy `0` as unset, so the handler answers
with status 500, not with the present status value. -/
theorem C3_status_zero_counterexample :
    errorMiddleware ⟨"boom", some 0⟩ ≠ Outcome.respond 0 (Body.errB "boom" 0) ∧
    errorMiddleware ⟨"boom", some 0⟩ = Outcome.respond 500 (Body.errB "boom" 500) := by
  decide

/-- Claim C3 (amended): the centralized error middleware emits exactly one
response whose status is the error's status field when that field is present
and nonzero, and 500 when the field is absent or zero (JavaScript `||`
treats `0` as unset); the body is `{error: {message, status}}` with that
same status. -/
theorem C3_error_handler_shape (e : AppError) :
    (∀ s, e.status = some s → 0 < s →
      errorMiddleware e = Outcome.respond s (Body.errB e.message s)) ∧
    (e.status = none ∨ e.status = some 0 →
      errorMiddleware e = Outcome.respond 500 (Body.errB e.message 500)) := by
  constructor
  · intro s hs hpos
    rcases s with _ | n
    · exact absurd hpos (by simp)
    · simp [errorMiddleware, statusOrDefault, hs]
  · rintro (hs | hs) <;> simp [errorMiddleware, statusOrDefault, hs]

theorem C3_error_handler_shape_witness :
    errorMiddleware ⟨"Note not found", some 404⟩ =
      Outcome.respond 404 (Body.errB "Note not found" 404) ∧
    errorMiddleware ⟨"plain error", none⟩ =
      Outcome.respond 500 (Body.errB "plain error" 500) :=
  ⟨(C3_error_handler_shape ⟨"Note not found", some 404⟩).1 404 rfl (by decide),
   (C3_error_handler_shape ⟨"plain error", none⟩).2 (Or.inl rfl)⟩

/-- Claim C4: GET `/notes/async-notes/id` for an id matching no note in the
database array ends as an unhandled fault carrying the rejection's message —
the rejection is never delegated, and no response (in particular no shaped
404) is ever written. -/
theorem C4_async_missing_unhandled (store : List Note) (id : String)
    (h : ∀ n ∈ dbNotes, n.id ≠ id) :
    (handleApp store ⟨Method.GET, ["notes", "async-notes", id], ⟨none, none⟩⟩).1 =
      Outcome.unhandledFault "Note not found in database" ∧
    ∀ c b, (handleApp store ⟨Method.GET, ["notes", "async-notes", id], ⟨none, none⟩⟩).1 ≠
      Outcome.respond c b := by
  have hf : dbNotes.find? (fun n => n.id == id) = none := by
    rw [List.find?_eq_none]
    intro n hn
    simpa using h n hn
  have hmain :
      (handleApp store ⟨Method.GET, ["notes", "async-notes", id], ⟨none, none⟩⟩).1 =
        Outcome.unhandledFault "Note not found in database" := by
    simp [handleApp, routes, notesRouter, getNoteFromDB, hf]
  exact ⟨hmain, fun c b => by rw [hmain]; exact fun hc => Outcome.noConfusion hc⟩

theorem C4_async_missing_unhandled_witness :
    (handleApp seededNotes ⟨Method.GET, ["notes", "async-notes", "999"], ⟨none, none⟩⟩).1 =
      Outcome.unhandledFault "Note not found in database" ∧
    ∀ c b, (handleApp seededNotes ⟨Method.GET, ["notes", "async-notes", "999"], ⟨none, none⟩⟩).1 ≠
      Outcome.respond c b :=
  C4_async_missing_unhandled seededNotes "999" (by decide)

/-- Claim C8: POST `/notes` with a missing or empty title, or a missing or
empty body, responds 400 with the `title and body required` envelope and
leaves the store exactly as it was. -/
theorem C8_post_invalid_400 (store : List Note) (t b : Option String)
    (h : falsy t = true ∨ falsy b = true) :
    handleApp store ⟨Method.POST, ["notes"], ⟨t, b⟩⟩ =
      (Outcome.respond 400 (Body.errB "title and body required" 400), store) := by
  have hcond : (falsy t || falsy b) = true := by
    rcases h with h | h <;> simp [h]
  simp [handleApp, routes, notesRouter, afterRouter, postNotesHandler, hcond,
    errorMiddleware, statusOrDefault]

theorem C8_post_invalid_400_witness :
    handleApp seededNotes ⟨Method.POST, ["notes"], ⟨none, some "Leg day"⟩⟩ =
      (Outcome.respond 400 (Body.errB "title and body required" 400), seededNotes) :=
  C8_post_invalid_400 seededNotes none (some "Leg day") (Or.inl rfl)

/-- Claim C9: GET `/notes/async-notes` (one segment after the mount) is
matched by the `/:id` route with id `"async-notes"`; with no note under
that id the route delegates `AppError("Note not found", 404)`, the error
middleware renders the shaped 404, and the async handler never runs (the
request cannot end as an unhandled fault). -/
theorem C9_async_notes_single_segment (store : List Note)
    (h : ∀ n ∈ store, n.id ≠ "async-notes") :
    routes store ⟨Method.GET, ["notes", "async-notes"], ⟨none, none⟩⟩ =
      (RouteResult.delegate ⟨"Note not found", some 404⟩, store) ∧
    (handleApp store ⟨Method.GET, ["notes", "async-notes"], ⟨none, none⟩⟩).1 =
      Outcome.respond 404 (Body.errB "Note not found" 404) ∧
    ∀ m, (handleApp store ⟨Method.GET, ["notes", "async-notes"], ⟨none, none⟩⟩).1 ≠
      Outcome.unhandledFault m := by
  have hf : store.find? (fun n => n.id == "async-notes") = none := by
    rw [List.find?_eq_none]
    intro n hn
    simpa using h n hn
  have hr : routes store ⟨Method.GET, ["notes", "async-notes"], ⟨none, none⟩⟩ =
      (RouteResult.delegate ⟨"Note not found", some 404⟩, store) := by
    simp [routes, notesRouter, hf]
  have hm : (handleApp store ⟨Method.GET, ["notes", "async-notes"], ⟨none, none⟩⟩).1 =
      Outcome.respond 404 (Body.errB "Note not found" 404) := by
    simp [handleApp, hr, errorMiddleware, statusOrDefault]
  exact ⟨hr, hm, fun m => by rw [hm]; exact fun hc => Outcome.noConfusion hc⟩

theorem C9_async_notes_single_segment_witness :
    routes seededNotes ⟨Method.GET, ["notes", "async-notes"], ⟨none, none⟩⟩ =
      (RouteResult.delegate ⟨"Note not found", some 404⟩, seededNotes) ∧
    (handleApp seededNotes ⟨Method.GET, ["notes", "async-notes"], ⟨none, none⟩⟩).1 =
      Outcome.respond 404 (Body.errB "Note not found" 404) ∧
    ∀ m, (handleApp seededNotes ⟨Method.GET, ["notes", "async-notes"], ⟨none, none⟩⟩).1 ≠
      Outcome.unhandledFault m :=
  C9_async_notes_single_segment seededNotes (by decide)

/-- Claim C7: from any store state, POST `/notes` with non-empty title `T`
and body `B` responds 201 with the created note, the store becomes the old
store with that note appended, and a subsequent GET `/notes` returns the new
sequence, whose last element is
`{id: toString (previous length + 1), title: T, body: B}`. -/
theorem C7_post_appends (store : List Note) (T B : String)
    (hT : T ≠ "") (hB : B ≠ "") :
    handleApp store ⟨Method.POST, ["notes"], ⟨some T, some B⟩⟩ =
      (Outcome.respond 201 (Body.noteB ⟨toString (store.length + 1), T, B⟩),
        store ++ [⟨toString (store.length + 1), T, B⟩]) ∧
    (handleApp (store ++ [⟨toString (store.length + 1), T, B⟩])
        ⟨Method.GET, ["notes"], ⟨none, none⟩⟩).1 =
      Outcome.respond 200 (Body.notesB (store ++ [⟨toString (store.length + 1), T, B⟩])) ∧
    (store ++ [(⟨toString (store.length + 1), T, B⟩ : Note)]).getLast? =
      some ⟨toString (store.length + 1), T, B⟩ := by
  have hT2 : (T == "") = false := by
    simpa using hT
  have hB2 : (B == "") = false := by
    simpa using hB
  refine ⟨?_, ?_, ?_⟩
  · simp [handleApp, routes, notesRouter, afterRouter, postNotesHandler, falsy, hT2, hB2]
  · simp [handleApp, routes, notesRouter]
  · rw [List.getLast?_append_cons]
    rfl

theorem C7_post_appends_witness :
    handleApp seededNotes ⟨Method.POST, ["notes"], ⟨some "Reading", some "Read a book"⟩⟩ =
      (Outcome.respond 201 (Body.noteB ⟨"3", "Reading", "Read a book"⟩),
        seededNotes ++ [⟨"3", "Reading", "Read a book"⟩]) ∧
    (handleApp (seededNotes ++ [⟨"3", "Reading", "Read a book"⟩])
        ⟨Method.GET, ["notes"], ⟨none, none⟩⟩).1 =
      Outcome.respond 200 (Body.notesB (seededNotes ++ [⟨"3", "Reading", "Read a book"⟩])) ∧
    (seededNotes ++ [(⟨"3", "Reading", "Read a book"⟩ : Note)]).getLast? =
      some ⟨"3", "Reading", "Read a book"⟩ :=
  C7_post_appends seededNotes "Reading" "Read a book" (by decide) (by decide)

end NotesApp
